import Mathlib

/-!
Shallow embedding of `hytera_homebrew_bridge/lib/snmp.py` (class `SNMP`):
the OID catalog, the per-OID decode step, the `walk_ip` fetch loop with its
community-fallback retry policy, and the `print_snmp_data` reporter.

The protocol collaborator (`puresnmp` client wrapped in `asyncio.wait_for`)
is modelled as an oracle `fetch : String → String → FetchRes` mapping a
community string and the OID string actually passed to `client.get` to the
outcome of that single request.  The mutable store
`settings_storage.hytera_snmp_data` is modelled as an association list with
Python-dict assignment semantics (update in place if present, append
otherwise), so insertion order is preserved.
-/

/-- Outcome of one `await asyncio.wait_for(client.get(oid=_oid), ...)` call:
either raw response bytes or one of the exception classes distinguished by
the `except` clauses of `walk_ip`. -/
inductive FetchRes where
  | ok (bs : List Nat)
  | connRefused
  | sysError
  | timeout
  | other
deriving DecidableEq, Repr

/-- Failure class of one walk attempt, as discriminated by the `except`
chain in `walk_ip`: `ConnectionRefusedError`, `SystemError`, the
timeout/cancellation tuple, the `UnicodeDecodeError` raised by
`str(snmp_result, "utf8")`, and everything else (both of the last two are
caught by the final bare `except:`). -/
inductive Failure where
  | connRefused
  | sysError
  | timeout
  | decodeError
  | other
deriving DecidableEq, Repr

/-- A value stored in `snmp_data`: the decoded UTF-8 text for OIDs in
`ALL_STRINGS`, the big-endian integer for OIDs in `ALL_FLOATS`, and the raw
response unchanged for every other OID. -/
inductive Value where
  | int (n : Nat)
  | text (s : String)
  | bytes (bs : List Nat)
deriving DecidableEq, Repr

/-- The `hytera_snmp_data` dict (and the in-progress `snmp_data` dict):
an insertion-ordered association list. -/
abbrev Store := List (String × Value)

/-- Python dict assignment `d[k] = v`: overwrite in place when the key is
present, append at the end otherwise. -/
def dictSet : Store → String → Value → Store
  | [], k, v => [(k, v)]
  | (k', v') :: rest, k, v =>
      if k' = k then (k', v) :: rest else (k', v') :: dictSet rest k v

/-- Python dict lookup `d.get(k)`. -/
def dictGet : Store → String → Option Value
  | [], _ => none
  | (k', v') :: rest, k => if k' = k then some v' else dictGet rest k

/-- The success-path commit loop of `walk_ip`:
`for key, value in snmp_data.items(): settings_storage.hytera_snmp_data[key] = value`. -/
def mergeStore (store : Store) (snap : Store) : Store :=
  snap.foldl (fun st kv => dictSet st kv.1 kv.2) store

/-- Python `int.from_bytes(bs, byteorder="big")` (unsigned). -/
def intFromBytesBE (bs : List Nat) : Nat :=
  bs.foldl (fun acc b => acc * 256 + b) 0

/-- Python `bytes.decode("utf8")` in strict mode: rejects lead bytes
`0x80–0xC1` and `0xF5–0xFF`, truncated sequences, bad continuation bytes,
overlong encodings, surrogates and code points above `0x10FFFF`. -/
def utf8Decode : List Nat → Option (List Char)
  | [] => some []
  | b :: rest =>
    if b < 0x80 then
      (utf8Decode rest).map (fun cs => Char.ofNat b :: cs)
    else if b < 0xC2 then none
    else if b < 0xE0 then
      match rest with
      | b1 :: rest2 =>
        if 0x80 ≤ b1 && b1 < 0xC0 then
          (utf8Decode rest2).map (fun cs =>
            Char.ofNat ((b - 0xC0) * 0x40 + (b1 - 0x80)) :: cs)
        else none
      | [] => none
    else if b < 0xF0 then
      match rest with
      | b1 :: b2 :: rest3 =>
        if (0x80 ≤ b1 && b1 < 0xC0) && (0x80 ≤ b2 && b2 < 0xC0) then
          let cp := (b - 0xE0) * 0x1000 + (b1 - 0x80) * 0x40 + (b2 - 0x80)
          if 0x800 ≤ cp && !(0xD800 ≤ cp && cp < 0xE000) then
            (utf8Decode rest3).map (fun cs => Char.ofNat cp :: cs)
          else none
        else none
      | _ => none
    else if b < 0xF5 then
      match rest with
      | b1 :: b2 :: b3 :: rest4 =>
        if (0x80 ≤ b1 && b1 < 0xC0) && (0x80 ≤ b2 && b2 < 0xC0)
            && (0x80 ≤ b3 && b3 < 0xC0) then
          let cp := (b - 0xF0) * 0x40000 + (b1 - 0x80) * 0x1000
              + (b2 - 0x80) * 0x40 + (b3 - 0x80)
          if 0x10000 ≤ cp && cp < 0x110000 then
            (utf8Decode rest4).map (fun cs => Char.ofNat cp :: cs)
          else none
        else none
      | _ => none
    else none

/-- A character the normalization step keeps: at or above the space
character and not DEL. -/
def isPrintableChar (c : Char) : Bool :=
  0x20 ≤ c.toNat && c.toNat != 0x7F

/-- Modelled from the spec: `octet_string_to_utf8` lives in
`hytera_homebrew_bridge/lib/utils.py`, which is not part of the sources
here; per §4.2 of the spec it strips/normalizes embedded NUL padding and
non-printable trailing bytes appended by the firmware, producing a clean
printable string.  Modelled as removing every non-printable character. -/
def octet_string_to_utf8 (s : String) : String :=
  String.mk (s.data.filter isPrintableChar)

/-- The Text decode path of `walk_ip`:
`octet_string_to_utf8(str(snmp_result, "utf8"))`, failing when the bytes
are not valid UTF-8. -/
def decodeText (bs : List Nat) : Option String :=
  (utf8Decode bs).map (fun cs => octet_string_to_utf8 (String.mk cs))

/-- Replace every non-overlapping occurrence of `pat` in the input by
`rep`, scanning left to right — the semantics of Python `str.replace`.
The first argument is recursion fuel: each step consumes at least one
input character, so fuel equal to the input length never runs out. -/
def replaceAll (pat rep : List Char) : Nat → List Char → List Char
  | _, [] => []
  | 0, s => s
  | fuel + 1, c :: rest =>
    if pat ≠ [] ∧ pat.isPrefixOf (c :: rest) then
      rep ++ replaceAll pat rep fuel (rest.drop (pat.length - 1))
    else
      c :: replaceAll pat rep fuel rest

/-- Python `s.replace(pat, rep)`. -/
def pyReplace (s pat rep : String) : String :=
  String.mk (replaceAll pat.data rep.data s.data.length s.data)

namespace SNMP

def OID_PSU_VOLTAGE : String := "iso.3.6.1.4.1.40297.1.2.1.2.1.0"
def OID_PA_TEMPERATURE : String := "iso.3.6.1.4.1.40297.1.2.1.2.2.0"
def OID_VSWR : String := "iso.3.6.1.4.1.40297.1.2.1.2.4.0"
def OID_TX_FWD_POWER : String := "iso.3.6.1.4.1.40297.1.2.1.2.5.0"
def OID_TX_REF_POWER : String := "iso.3.6.1.4.1.40297.1.2.1.2.6.0"
def OID_RSSI_TS1 : String := "iso.3.6.1.4.1.40297.1.2.1.2.9.0"
def OID_RSSI_TS2 : String := "iso.3.6.1.4.1.40297.1.2.1.2.10.0"
def OID_REPEATER_MODEL : String := "iso.3.6.1.4.1.40297.1.2.4.1.0"
def OID_MODEL_NUMBER : String := "iso.3.6.1.4.1.40297.1.2.4.2.0"
def OID_FIRMWARE_VERSION : String := "iso.3.6.1.4.1.40297.1.2.4.3.0"
def OID_RCDB_VERSION : String := "iso.3.6.1.4.1.40297.1.2.4.4.0"
def OID_SERIAL_NUMBER : String := "iso.3.6.1.4.1.40297.1.2.4.5.0"
def OID_RADIO_ALIAS : String := "iso.3.6.1.4.1.40297.1.2.4.6.0"
def OID_RADIO_ID : String := "iso.3.6.1.4.1.40297.1.2.4.7.0"
def OID_CUR_CHANNEL_MODE : String := "iso.3.6.1.4.1.40297.1.2.4.8.0"
def OID_CUR_CHANNEL_NAME : String := "iso.3.6.1.4.1.40297.1.2.4.9.0"
def OID_TX_FREQUENCE : String := "iso.3.6.1.4.1.40297.1.2.4.10.0"
def OID_RX_FREQUENCE : String := "iso.3.6.1.4.1.40297.1.2.4.11.0"
def OID_WORK_STATUS : String := "iso.3.6.1.4.1.40297.1.2.4.12.0"
def OID_CUR_ZONE_ALIAS : String := "iso.3.6.1.4.1.40297.1.2.4.13.0"

/-- The `READABLE_LABELS` dict in source (insertion) order: OID, display
label, format template. -/
def READABLE_LABELS : List (String × String × String) :=
  [ (OID_PSU_VOLTAGE, ("PSU Voltage", "%d mV")),
    (OID_PA_TEMPERATURE, ("PA Temperature", "%d m°C")),
    (OID_VSWR, ("VSWR", "%d dB")),
    (OID_TX_FWD_POWER, ("TX Forward Power", "%d mW")),
    (OID_TX_REF_POWER, ("TX Reflected Power", "%d mW")),
    (OID_RSSI_TS1, ("RSSI TS1", "%d dB")),
    (OID_RSSI_TS2, ("RSSI TS2", "%d dB")),
    (OID_REPEATER_MODEL, ("Repeater Model", "%s")),
    (OID_MODEL_NUMBER, ("Repeater Model Identification", "%s")),
    (OID_FIRMWARE_VERSION, ("Repeater Firmware", "%s")),
    (OID_RCDB_VERSION, ("Repeater Radio Data (RCDB)", "%s")),
    (OID_SERIAL_NUMBER, ("Repeater Serial No.", "%s")),
    (OID_RADIO_ALIAS, ("Radio Alias (Callsign)", "%s")),
    (OID_RADIO_ID, ("Repeater ID", "%d")),
    (OID_CUR_CHANNEL_NAME, ("Current Channel Name", "%s")),
    (OID_CUR_CHANNEL_MODE,
      ("Current Channel Zone (0=DIGITAL, 1=ANALOG, 2=MIXED)", "%d")),
    (OID_TX_FREQUENCE, ("TX Frequence", "%d Hz")),
    (OID_RX_FREQUENCE, ("RX Frequence", "%d Hz")),
    (OID_WORK_STATUS, ("Work Status (0=RECEIVE, 1=TRANSMIT)", "%d")),
    (OID_CUR_ZONE_ALIAS, ("Current Zone Alias", "%s")) ]

/-- The `ALL_STRINGS` tuple. -/
def ALL_STRINGS : List String :=
  [ OID_REPEATER_MODEL, OID_MODEL_NUMBER, OID_FIRMWARE_VERSION,
    OID_RCDB_VERSION, OID_RADIO_ALIAS, OID_CUR_ZONE_ALIAS,
    OID_SERIAL_NUMBER, OID_CUR_CHANNEL_NAME ]

/-- The `ALL_FLOATS` tuple. -/
def ALL_FLOATS : List String :=
  [ OID_PSU_VOLTAGE, OID_VSWR, OID_PA_TEMPERATURE,
    OID_TX_FWD_POWER, OID_TX_REF_POWER ]

/-- The `ALL_KNOWN` tuple: the fixed poll order of the walk. -/
def ALL_KNOWN : List String :=
  [ OID_PSU_VOLTAGE, OID_PA_TEMPERATURE, OID_VSWR, OID_TX_FWD_POWER,
    OID_TX_REF_POWER, OID_RSSI_TS1, OID_RSSI_TS2, OID_REPEATER_MODEL,
    OID_MODEL_NUMBER, OID_FIRMWARE_VERSION, OID_RCDB_VERSION,
    OID_SERIAL_NUMBER, OID_RADIO_ALIAS, OID_RADIO_ID,
    OID_CUR_CHANNEL_MODE, OID_CUR_CHANNEL_NAME, OID_TX_FREQUENCE,
    OID_RX_FREQUENCE, OID_WORK_STATUS, OID_CUR_ZONE_ALIAS ]

end SNMP

/-- Result of the `try:` block of `walk_ip`: the (possibly partial)
`snmp_data` dict, the failure that aborted the loop (if any), and the list
of OID strings actually passed to `client.get`, in call order. -/
structure LoopOut where
  snmp_data : Store
  failure : Option Failure
  calls : List String
deriving DecidableEq, Repr

/-- One iteration body of the fetch loop: compute
`_oid = oid.replace("iso", "1")`, issue the request, and decode the
response per the `ALL_STRINGS` / `ALL_FLOATS` membership tests.  Returns
the OID string passed to `client.get` together with either the value
stored into `snmp_data` or the failure class raised. -/
def stepOf (fetch : String → String → FetchRes) (community oid : String) :
    String × Except Failure Value :=
  let oid' := pyReplace oid "iso" "1"
  ( oid',
    match fetch community oid' with
    | .ok bs =>
      if SNMP.ALL_STRINGS.contains oid then
        match decodeText bs with
        | some s => .ok (.text s)
        | none => .error .decodeError
      else if SNMP.ALL_FLOATS.contains oid then
        .ok (.int (intFromBytesBE bs))
      else
        .ok (.bytes bs)
    | .connRefused => .error .connRefused
    | .sysError => .error .sysError
    | .timeout => .error .timeout
    | .other => .error .other )

/-- The `for oid in SNMP.ALL_KNOWN:` loop: one request per OID in catalog
order, aborting on the first failure and keeping the entries accumulated
so far (the Python `snmp_data` dict survives the raised exception). -/
def runLoop (step : String → String × Except Failure Value) :
    List String → Store → List String → LoopOut
  | [], acc, calls => ⟨acc, none, calls⟩
  | oid :: rest, acc, calls =>
    match step oid with
    | (o, .ok v) => runLoop step rest (dictSet acc oid v) (calls ++ [o])
    | (o, .error e) => ⟨acc, some e, calls ++ [o]⟩

/-- The whole `try:` block of one `walk_ip` invocation under community
`c`, starting from an empty `snmp_data`. -/
def tryBody (fetch : String → String → FetchRes) (c : String) : LoopOut :=
  runLoop (stepOf fetch c) SNMP.ALL_KNOWN [] []

/-- Observable outcome of one `walk_ip` call: the dict it returns, the
state of `settings_storage.hytera_snmp_data` afterwards, and the
`(snmp_community, first_try)` pair of every attempt started, in order. -/
structure WalkOut where
  snapshot : Store
  store : Store
  attempts : List (String × Bool)
deriving DecidableEq, Repr

/-- Computation of `other_community`:
`"public" if snmp_community == "hytera" else "hytera"`. -/
def otherCommunity (c : String) : String :=
  if c = "hytera" then "public" else "hytera"

/-- The body of `walk_ip` around one `try:` block, with the result of the
recursive fallback call passed in as `fallback`.  The `except` chain in
source order: `ConnectionRefusedError`, `SystemError`, the
timeout/cancellation tuple (which recurses once when `first_try`), and the
bare `except:` that absorbs everything else, `UnicodeDecodeError`
included.  An exception raised by the recursive call inside the timeout
handler would propagate, hence the `Except` result. -/
def walkBody (fetch : String → String → FetchRes) (settings_storage : Store)
    (snmp_community : String) (first_try : Bool)
    (fallback : Except Failure WalkOut) : Except Failure WalkOut :=
  let res := tryBody fetch snmp_community
  match res.failure with
  | none =>
      .ok ⟨res.snmp_data, mergeStore settings_storage res.snmp_data,
           [(snmp_community, first_try)]⟩
  | some .connRefused =>
      .ok ⟨res.snmp_data, settings_storage, [(snmp_community, first_try)]⟩
  | some .sysError =>
      .ok ⟨res.snmp_data, settings_storage, [(snmp_community, first_try)]⟩
  | some .timeout =>
      if first_try then
        match fallback with
        | .ok inner =>
            .ok ⟨res.snmp_data, inner.store,
                 (snmp_community, first_try) :: inner.attempts⟩
        | .error e => .error e
      else
        .ok ⟨res.snmp_data, settings_storage, [(snmp_community, first_try)]⟩
  | some .decodeError =>
      .ok ⟨res.snmp_data, settings_storage, [(snmp_community, first_try)]⟩
  | some .other =>
      .ok ⟨res.snmp_data, settings_storage, [(snmp_community, first_try)]⟩

/-- Placeholder for the fallback argument of the inner attempt: the inner
call runs with `first_try = False`, so its own fallback is never
consulted. -/
def noFallback : Except Failure WalkOut := .error .other

/-- Walk entry point `SNMP.walk_ip`: the recursion depth is at most one (the recursive call
passes `first_try=False`), so the recursion is unrolled into the
`fallback` argument of `walkBody`. -/
def walk_ip (fetch : String → String → FetchRes) (settings_storage : Store)
    (snmp_community : String) (first_try : Bool) : Except Failure WalkOut :=
  walkBody fetch settings_storage snmp_community first_try
    (walkBody fetch settings_storage (otherCommunity snmp_community) false
      noFallback)

/-- Snapshot returned by a walk (empty when the walk raised, which never
happens). -/
def exSnap : Except Failure WalkOut → Store
  | .ok o => o.snapshot
  | .error _ => []

/-- Store left behind by a walk; `d` is the store it started from. -/
def exStore (d : Store) : Except Failure WalkOut → Store
  | .ok o => o.store
  | .error _ => d

/-- Attempts performed by a walk. -/
def exAttempts : Except Failure WalkOut → List (String × Bool)
  | .ok o => o.attempts
  | .error _ => []

/-- The banner line emitted before and after the report. -/
def SNMP_BANNER : String :=
  "-------------- REPEATER SNMP CONFIGURATION ----------------------------"

/-- The first loop of `print_snmp_data`: the length of the longest label
in `READABLE_LABELS`. -/
def longest_label : Nat :=
  SNMP.READABLE_LABELS.foldl
    (fun best kv => if kv.2.1.length > best then kv.2.1.length else best) 0

/-- Lookup `SNMP.READABLE_LABELS.get(key)`: the `(label, format)` pair of an OID,
when registered. -/
def lookupLabel (oid : String) : Option (String × String) :=
  (SNMP.READABLE_LABELS.find? (fun kv => kv.1 == oid)).map (fun kv => kv.2)

/-- Python `str.ljust`: pad with spaces on the right up to width `n` (no
effect when the string is already at least that long). -/
def ljust (s : String) (n : Nat) : String :=
  s ++ String.mk (List.replicate (n - s.length) ' ')

/-- Python `str(...)` of a stored value, used when a `%d` or `%s`
placeholder is filled: decimal rendering for integers, the text itself for
strings, and a list rendering standing in for the `bytes` repr. -/
def renderValue : Value → String
  | .int n => toString n
  | .text s => s
  | .bytes bs => toString bs

/-- Fill every `%d` / `%s` placeholder of a `%`-format template with the
rendered value — the `print_settings[1] % value` step. -/
def pyFormatAux : List Char → Value → List Char
  | [], _ => []
  | '%' :: 'd' :: rest, v => (renderValue v).data ++ pyFormatAux rest v
  | '%' :: 's' :: rest, v => (renderValue v).data ++ pyFormatAux rest v
  | c :: rest, v => c :: pyFormatAux rest v

/-- Python `fmt % value` for the templates of `READABLE_LABELS`. -/
def pyFormat (fmt : String) (v : Value) : String :=
  String.mk (pyFormatAux fmt.data v)

/-- Reporter `SNMP.print_snmp_data`: one banner, then — for each key of
`hytera_snmp_data` in insertion order that has an entry in
`READABLE_LABELS` — the line
`"%s| %s" % (label.ljust(longest_label + 5), fmt % value)`; keys without a
label entry are skipped; then the closing banner. -/
def print_snmp_data (settings_storage : Store) : List String :=
  SNMP_BANNER ::
    (settings_storage.foldl (fun lines kv =>
      match lookupLabel kv.1 with
      | some ps =>
          lines ++ [ljust ps.1 (longest_label + 5) ++ "| " ++ pyFormat ps.2 kv.2]
      | none => lines) [])
    ++ [SNMP_BANNER]

theorem dictSet_notMem : ∀ (acc : Store) (k : String) (v : Value),
    (∀ p ∈ acc, p.1 ≠ k) → dictSet acc k v = acc ++ [(k, v)]
  | [], _, _, _ => rfl
  | (k', v') :: rest, k, v, h => by
    have hk : k' ≠ k := h (k', v') (List.mem_cons_self _ _)
    simp only [dictSet, if_neg hk, List.cons_append, List.cons.injEq, true_and]
    exact dictSet_notMem rest k v (fun p hp => h p (List.mem_cons_of_mem _ hp))

theorem runLoop_success_keys (step : String → String × Except Failure Value) :
    ∀ (l : List String) (acc : Store) (calls : List String),
      (∀ p ∈ acc, p.1 ∉ l) → l.Nodup →
      (runLoop step l acc calls).failure = none →
      (runLoop step l acc calls).snmp_data.map Prod.fst = acc.map Prod.fst ++ l
  | [], acc, calls, _, _, _ => by simp [runLoop]
  | oid :: rest, acc, calls, hdisj, hnd, hsucc => by
    rw [runLoop] at hsucc ⊢
    cases hstep : step oid with
    | mk o r =>
      cases r with
      | error e => rw [hstep] at hsucc; simp at hsucc
      | ok v =>
        rw [hstep] at hsucc
        dsimp only at hsucc ⊢
        have hoid : ∀ p ∈ acc, p.1 ≠ oid := fun p hp =>
          fun he => hdisj p hp (he ▸ List.mem_cons_self _ _)
        have hnotrest : oid ∉ rest := (List.nodup_cons.mp hnd).1
        have hdisj' : ∀ p ∈ dictSet acc oid v, p.1 ∉ rest := by
          rw [dictSet_notMem acc oid v hoid]
          intro p hp
          rcases List.mem_append.mp hp with h1 | h2
          · exact fun hin => hdisj p h1 (List.mem_cons_of_mem _ hin)
          · simp only [List.mem_singleton] at h2
            subst h2
            exact hnotrest
        have ih := runLoop_success_keys step rest (dictSet acc oid v)
          (calls ++ [o]) hdisj' (List.nodup_cons.mp hnd).2 hsucc
        rw [ih, dictSet_notMem acc oid v hoid]
        simp

theorem runLoop_keys_take (step : String → String × Except Failure Value) :
    ∀ (l : List String) (acc : Store) (calls : List String),
      (∀ p ∈ acc, p.1 ∉ l) → l.Nodup →
      ∃ j, (runLoop step l acc calls).snmp_data.map Prod.fst =
        acc.map Prod.fst ++ l.take j
  | [], acc, calls, _, _ => ⟨0, by simp [runLoop]⟩
  | oid :: rest, acc, calls, hdisj, hnd => by
    rw [runLoop]
    cases hstep : step oid with
    | mk o r =>
      cases r with
      | error e => exact ⟨0, by simp⟩
      | ok v =>
        dsimp only
        have hoid : ∀ p ∈ acc, p.1 ≠ oid := fun p hp =>
          fun he => hdisj p hp (he ▸ List.mem_cons_self _ _)
        have hnotrest : oid ∉ rest := (List.nodup_cons.mp hnd).1
        have hdisj' : ∀ p ∈ dictSet acc oid v, p.1 ∉ rest := by
          rw [dictSet_notMem acc oid v hoid]
          intro p hp
          rcases List.mem_append.mp hp with h1 | h2
          · exact fun hin => hdisj p h1 (List.mem_cons_of_mem _ hin)
          · simp only [List.mem_singleton] at h2
            subst h2
            exact hnotrest
        obtain ⟨j, hj⟩ := runLoop_keys_take step rest (dictSet acc oid v)
          (calls ++ [o]) hdisj' (List.nodup_cons.mp hnd).2
        refine ⟨j + 1, ?_⟩
        rw [hj, dictSet_notMem acc oid v hoid]
        simp

theorem runLoop_calls_take (step : String → String × Except Failure Value) :
    ∀ (l : List String) (acc : Store) (calls : List String),
      ∃ k, (runLoop step l acc calls).calls =
        calls ++ (l.take k).map (fun oid => (step oid).1)
  | [], acc, calls => ⟨0, by simp [runLoop]⟩
  | oid :: rest, acc, calls => by
    rw [runLoop]
    cases hstep : step oid with
    | mk o r =>
      cases r with
      | error e =>
        refine ⟨1, ?_⟩
        simp [hstep]
      | ok v =>
        dsimp only
        obtain ⟨k, hk⟩ := runLoop_calls_take step rest (dictSet acc oid v) (calls ++ [o])
        refine ⟨k + 1, ?_⟩
        rw [hk]
        simp [hstep]

theorem walkBody_false_eq (fetch : String → String → FetchRes) (st : Store)
    (c : String) (fb : Except Failure WalkOut) :
    walkBody fetch st c false fb =
      .ok ⟨(tryBody fetch c).snmp_data,
           if (tryBody fetch c).failure = none
             then mergeStore st (tryBody fetch c).snmp_data else st,
           [(c, false)]⟩ := by
  cases h : (tryBody fetch c).failure with
  | none => simp [walkBody, h]
  | some e => cases e <;> simp [walkBody, h]

theorem walk_ip_false_eq (fetch : String → String → FetchRes) (st : Store)
    (c : String) :
    walk_ip fetch st c false =
      .ok ⟨(tryBody fetch c).snmp_data,
           if (tryBody fetch c).failure = none
             then mergeStore st (tryBody fetch c).snmp_data else st,
           [(c, false)]⟩ := by
  rw [walk_ip, walkBody_false_eq]

theorem walk_ip_success (fetch : String → String → FetchRes) (st : Store)
    (c : String) (ft : Bool) (h : (tryBody fetch c).failure = none) :
    walk_ip fetch st c ft =
      .ok ⟨(tryBody fetch c).snmp_data,
           mergeStore st (tryBody fetch c).snmp_data, [(c, ft)]⟩ := by
  rw [walk_ip, walkBody.eq_def]
  simp [h]

theorem walk_ip_fail_no_retry (fetch : String → String → FetchRes) (st : Store)
    (c : String) (ft : Bool) (e : Failure)
    (h : (tryBody fetch c).failure = some e)
    (hcase : ft = false ∨ e ≠ .timeout) :
    walk_ip fetch st c ft = .ok ⟨(tryBody fetch c).snmp_data, st, [(c, ft)]⟩ := by
  cases e with
  | timeout =>
    have hft : ft = false := by
      rcases hcase with h1 | h2
      · exact h1
      · exact absurd rfl h2
    subst hft
    simp [walk_ip, walkBody.eq_def, h]
  | connRefused => simp [walk_ip, walkBody.eq_def, h]
  | sysError => simp [walk_ip, walkBody.eq_def, h]
  | decodeError => simp [walk_ip, walkBody.eq_def, h]
  | other => simp [walk_ip, walkBody.eq_def, h]

theorem walk_ip_timeout_first (fetch : String → String → FetchRes) (st : Store)
    (c : String) (h : (tryBody fetch c).failure = some .timeout) :
    walk_ip fetch st c true =
      .ok ⟨(tryBody fetch c).snmp_data,
           if (tryBody fetch (otherCommunity c)).failure = none
             then mergeStore st (tryBody fetch (otherCommunity c)).snmp_data
             else st,
           [(c, true), (otherCommunity c, false)]⟩ := by
  rw [walk_ip, walkBody_false_eq, walkBody.eq_def]
  simp [h]

/-- The line `print_snmp_data` emits for one store entry, when its OID has
a registered label. -/
def reportLine (kv : String × Value) : Option String :=
  (lookupLabel kv.1).map
    (fun ps => ljust ps.1 (longest_label + 5) ++ "| " ++ pyFormat ps.2 kv.2)

theorem print_foldl_filterMap : ∀ (store : Store) (lines : List String),
    store.foldl (fun ls kv =>
      match lookupLabel kv.1 with
      | some ps =>
          ls ++ [ljust ps.1 (longest_label + 5) ++ "| " ++ pyFormat ps.2 kv.2]
      | none => ls) lines
    = lines ++ store.filterMap reportLine
  | [], lines => by simp
  | kv :: rest, lines => by
    simp only [List.foldl_cons, List.filterMap_cons]
    cases h : lookupLabel kv.1 with
    | none =>
      dsimp only
      simp only [reportLine, h, Option.map_none']
      exact print_foldl_filterMap rest lines
    | some ps =>
      dsimp only
      simp only [reportLine, h, Option.map_some']
      rw [print_foldl_filterMap rest (lines ++ [_])]
      simp

theorem filterMap_map_length {α β γ : Type} (g : α → Option β) (h : α → β → γ) :
    ∀ l : List α, (l.filterMap (fun a => (g a).map (h a))).length
      = (l.filter (fun a => (g a).isSome)).length
  | [] => rfl
  | a :: rest => by
    cases hg : g a <;>
      simp [List.filterMap_cons, List.filter_cons, hg,
        filterMap_map_length g h rest]

theorem ALL_KNOWN_nodup : SNMP.ALL_KNOWN.Nodup := by decide

theorem tryBody_snmp_data_keys (fetch : String → String → FetchRes)
    (c : String) (h : (tryBody fetch c).failure = none) :
    (tryBody fetch c).snmp_data.map Prod.fst = SNMP.ALL_KNOWN := by
  have := runLoop_success_keys (stepOf fetch c) SNMP.ALL_KNOWN [] []
    (by intro p hp; cases hp) ALL_KNOWN_nodup h
  simpa [tryBody] using this

/-- Claim C1: when the first attempt of a walk aborts with a
timeout/cancellation-class failure, `walk_ip` performs exactly one fallback
attempt, using the alternate community with the first-attempt flag cleared,
and no further attempt after that — whatever the outcome of the fallback
attempt (the attempt list is exactly the two entries, even when the
fallback attempt also times out). -/
theorem C1_walk_timeout_single_fallback
    (fetch : String → String → FetchRes) (st : Store) (c : String)
    (h : (tryBody fetch c).failure = some Failure.timeout) :
    exAttempts (walk_ip fetch st c true) =
      [(c, true), (otherCommunity c, false)] ∧ otherCommunity c ≠ c := by
  constructor
  · rw [walk_ip_timeout_first fetch st c h]
    rfl
  · unfold otherCommunity
    by_cases hc : c = "hytera"
    · rw [if_pos hc, hc]
      decide
    · rw [if_neg hc]
      exact fun he => hc he.symm

/-- Witness for claim C1 at a concrete oracle that times out on every
request, so both attempts time out and exactly two attempts occur. -/
theorem C1_witness :
    (tryBody (fun _ _ => FetchRes.timeout) "public").failure = some Failure.timeout
    ∧ exAttempts (walk_ip (fun _ _ => FetchRes.timeout) [] "public" true) =
        [("public", true), ("hytera", false)] := by
  refine ⟨by decide, ?_⟩
  have h2 := (C1_walk_timeout_single_fallback (fun _ _ => FetchRes.timeout) []
    "public" (by decide)).1
  simpa using h2

/-- Claim C2: the external store is mutated only by a fully successful
attempt, and then receives the merge of that attempt snapshot; an attempt
that fails at any OID leaves the store exactly as it was (no partial
commit).  On full success the snapshot holds exactly one entry per catalog
OID, in catalog order. -/
theorem C2_store_all_or_nothing
    (fetch : String → String → FetchRes) (st : Store) (c : String) (ft : Bool) :
    exStore st (walk_ip fetch st c ft) =
      (if (tryBody fetch c).failure = none then
        mergeStore st (tryBody fetch c).snmp_data
      else if (tryBody fetch c).failure = some Failure.timeout ∧ ft = true then
        (if (tryBody fetch (otherCommunity c)).failure = none then
          mergeStore st (tryBody fetch (otherCommunity c)).snmp_data
        else st)
      else st)
    ∧ ((tryBody fetch c).failure = none →
        (tryBody fetch c).snmp_data.map Prod.fst = SNMP.ALL_KNOWN) := by
  refine ⟨?_, tryBody_snmp_data_keys fetch c⟩
  cases h : (tryBody fetch c).failure with
  | none =>
    rw [walk_ip_success fetch st c ft h]
    simp [exStore]
  | some e =>
    cases e with
    | timeout =>
      cases ft with
      | false =>
        rw [walk_ip_fail_no_retry fetch st c false _ h (Or.inl rfl)]
        simp [exStore]
      | true =>
        rw [walk_ip_timeout_first fetch st c h]
        simp [exStore]
    | connRefused =>
      rw [walk_ip_fail_no_retry fetch st c ft _ h (Or.inr (by decide))]
      simp [exStore]
    | sysError =>
      rw [walk_ip_fail_no_retry fetch st c ft _ h (Or.inr (by decide))]
      simp [exStore]
    | decodeError =>
      rw [walk_ip_fail_no_retry fetch st c ft _ h (Or.inr (by decide))]
      simp [exStore]
    | other =>
      rw [walk_ip_fail_no_retry fetch st c ft _ h (Or.inr (by decide))]
      simp [exStore]

/-- Witness for claim C2: a fully successful walk merges exactly one
entry per catalog OID, and a walk refused on its first request leaves a
pre-populated store untouched. -/
theorem C2_witness :
    ((tryBody (fun _ _ => FetchRes.ok [65]) "public").failure = none
    ∧ (tryBody (fun _ _ => FetchRes.ok [65]) "public").snmp_data.map Prod.fst
        = SNMP.ALL_KNOWN)
    ∧ ((tryBody (fun _ _ => FetchRes.connRefused) "public").failure ≠ none
    ∧ exStore [(SNMP.OID_VSWR, Value.int 7)]
        (walk_ip (fun _ _ => FetchRes.connRefused) [(SNMP.OID_VSWR, Value.int 7)]
          "public" true)
        = [(SNMP.OID_VSWR, Value.int 7)]) := by
  refine ⟨⟨by decide, ?_⟩, by decide, ?_⟩
  · exact (C2_store_all_or_nothing (fun _ _ => FetchRes.ok [65]) [] "public"
      false).2 (by decide)
  · have h1 := (C2_store_all_or_nothing (fun _ _ => FetchRes.connRefused)
      [(SNMP.OID_VSWR, Value.int 7)] "public" true).1
    rw [h1]
    decide

/-- Counterexample to claim C3: a walk whose first attempt aborts with a
decode failure (every response is the invalid UTF-8 byte 0xFF, so the
first `ALL_STRINGS` OID fails to decode) performs no fallback attempt at
all — the attempt list stays at the single first attempt, refuting the
claimed one-shot community-fallback retry. -/
theorem C3_decode_error_no_retry_cex :
    (tryBody (fun _ _ => FetchRes.ok [255]) "public").failure
      = some Failure.decodeError
    ∧ exAttempts (walk_ip (fun _ _ => FetchRes.ok [255]) [] "public" true)
      = [("public", true)] :=
  ⟨by decide, by decide⟩

/-- Claim C3 (amended): a decode failure of a Text-kind OID aborts the
current attempt, but — unlike a timeout — it is absorbed by the final bare
catch-all handler and never triggers the community-fallback retry, not
even on the first attempt: the walk ends after the single attempt, returns
the partial snapshot, and leaves the store unchanged. -/
theorem C3_decode_error_aborts_without_retry
    (fetch : String → String → FetchRes) (st : Store) (c : String) (ft : Bool)
    (h : (tryBody fetch c).failure = some Failure.decodeError) :
    walk_ip fetch st c ft =
      .ok ⟨(tryBody fetch c).snmp_data, st, [(c, ft)]⟩ :=
  walk_ip_fail_no_retry fetch st c ft _ h (Or.inr (by decide))

/-- Witness for the amended claim C3 at a concrete oracle whose every
response is the invalid UTF-8 byte 0xFF. -/
theorem C3_amended_witness :
    (tryBody (fun _ _ => FetchRes.ok [255]) "public").failure
      = some Failure.decodeError
    ∧ walk_ip (fun _ _ => FetchRes.ok [255]) [] "public" true =
        .ok ⟨(tryBody (fun _ _ => FetchRes.ok [255]) "public").snmp_data, [],
             [("public", true)]⟩ :=
  ⟨by decide,
   C3_decode_error_aborts_without_retry (fun _ _ => FetchRes.ok [255]) []
     "public" true (by decide)⟩

/-- Counterexample to claim C4: a walk whose first OID succeeds (decoding
to 5000) and whose second request is refused aborts with the
connection-refusal failure yet returns a NON-empty snapshot — the entry
fetched before the refusal survives in the returned dict, refuting the
claimed empty snapshot. -/
theorem C4_conn_refused_partial_snapshot_cex :
    (tryBody (fun _ oid =>
        if oid = "1.3.6.1.4.1.40297.1.2.1.2.1.0" then FetchRes.ok [0, 0, 19, 136]
        else FetchRes.connRefused) "public").failure = some Failure.connRefused
    ∧ exSnap (walk_ip (fun _ oid =>
        if oid = "1.3.6.1.4.1.40297.1.2.1.2.1.0" then FetchRes.ok [0, 0, 19, 136]
        else FetchRes.connRefused) [] "public" true)
      = [(SNMP.OID_PSU_VOLTAGE, Value.int 5000)]
    ∧ exSnap (walk_ip (fun _ oid =>
        if oid = "1.3.6.1.4.1.40297.1.2.1.2.1.0" then FetchRes.ok [0, 0, 19, 136]
        else FetchRes.connRefused) [] "public" true) ≠ [] :=
  ⟨by decide, by decide, by decide⟩

/-- Claim C4 (amended): a connection-refusal-class failure never triggers
a retry, regardless of the attempt flag, and the walk returns the partial
snapshot accumulated before the failure (empty only when the refusal
precedes the first successful fetch); the store is left unchanged. -/
theorem C4_conn_refused_no_retry
    (fetch : String → String → FetchRes) (st : Store) (c : String) (ft : Bool)
    (h : (tryBody fetch c).failure = some Failure.connRefused) :
    walk_ip fetch st c ft =
      .ok ⟨(tryBody fetch c).snmp_data, st, [(c, ft)]⟩ :=
  walk_ip_fail_no_retry fetch st c ft _ h (Or.inr (by decide))

/-- Witness for the amended claim C4 at a concrete oracle that refuses
every request. -/
theorem C4_amended_witness :
    (tryBody (fun _ _ => FetchRes.connRefused) "public").failure
      = some Failure.connRefused
    ∧ walk_ip (fun _ _ => FetchRes.connRefused) [] "public" false =
        .ok ⟨(tryBody (fun _ _ => FetchRes.connRefused) "public").snmp_data, [],
             [("public", false)]⟩ :=
  ⟨by decide,
   C4_conn_refused_no_retry (fun _ _ => FetchRes.connRefused) [] "public" false
     (by decide)⟩

/-- Counterexample to claim C5: `OID_RSSI_TS1` is an integer-kind OID
(not tagged as text) whose response bytes are 0x00001388, yet after a
fully successful walk the snapshot records the raw bytes, not the
big-endian integer 5000 — only the five `ALL_FLOATS` OIDs get the
big-endian decoding. -/
theorem C5_integer_oid_raw_bytes_cex :
    (tryBody (fun _ oid =>
        if oid = "1.3.6.1.4.1.40297.1.2.1.2.9.0" then FetchRes.ok [0, 0, 19, 136]
        else FetchRes.ok [65]) "public").failure = none
    ∧ SNMP.ALL_STRINGS.contains SNMP.OID_RSSI_TS1 = false
    ∧ dictGet (exSnap (walk_ip (fun _ oid =>
        if oid = "1.3.6.1.4.1.40297.1.2.1.2.9.0" then FetchRes.ok [0, 0, 19, 136]
        else FetchRes.ok [65]) [] "public" true)) SNMP.OID_RSSI_TS1
      = some (Value.bytes [0, 0, 19, 136])
    ∧ dictGet (exSnap (walk_ip (fun _ oid =>
        if oid = "1.3.6.1.4.1.40297.1.2.1.2.9.0" then FetchRes.ok [0, 0, 19, 136]
        else FetchRes.ok [65]) [] "public" true)) SNMP.OID_RSSI_TS1
      ≠ some (Value.int 5000) :=
  ⟨by decide, by decide, by decide, by decide⟩

/-- Claim C5 (amended): for a non-text OID, the recorded value is the
unsigned big-endian integer interpretation of the response bytes exactly
when the OID is in `ALL_FLOATS` (with no scaling: 0x00001388 decodes to
5000); every other non-text OID stores the raw response unchanged. -/
theorem C5_integer_decode_paths
    (fetch : String → String → FetchRes) (c oid : String) (bs : List Nat)
    (hok : fetch c (pyReplace oid "iso" "1") = FetchRes.ok bs)
    (hns : SNMP.ALL_STRINGS.contains oid = false) :
    (stepOf fetch c oid).2 =
      .ok (if SNMP.ALL_FLOATS.contains oid then Value.int (intFromBytesBE bs)
           else Value.bytes bs)
    ∧ intFromBytesBE [0, 0, 19, 136] = 5000 := by
  refine ⟨?_, by decide⟩
  rw [stepOf]
  dsimp only
  rw [hok, hns]
  by_cases hf : SNMP.ALL_FLOATS.contains oid
  · rw [hf]
    simp
  · rw [Bool.not_eq_true] at hf
    rw [hf]
    simp

/-- Witness for the amended claim C5 at `OID_RSSI_TS1` and a concrete
oracle answering 0x00001388 on its numeric OID form. -/
theorem C5_amended_witness :
    ((fun (_ : String) (oid : String) =>
        if oid = "1.3.6.1.4.1.40297.1.2.1.2.9.0" then FetchRes.ok [0, 0, 19, 136]
        else FetchRes.ok [65]) "public"
          (pyReplace SNMP.OID_RSSI_TS1 "iso" "1") = FetchRes.ok [0, 0, 19, 136])
    ∧ SNMP.ALL_STRINGS.contains SNMP.OID_RSSI_TS1 = false
    ∧ (stepOf (fun (_ : String) (oid : String) =>
        if oid = "1.3.6.1.4.1.40297.1.2.1.2.9.0" then FetchRes.ok [0, 0, 19, 136]
        else FetchRes.ok [65]) "public" SNMP.OID_RSSI_TS1).2
      = .ok (Value.bytes [0, 0, 19, 136]) := by
  refine ⟨by decide, by decide, ?_⟩
  have h1 := (C5_integer_decode_paths (fun (_ : String) (oid : String) =>
    if oid = "1.3.6.1.4.1.40297.1.2.1.2.9.0" then FetchRes.ok [0, 0, 19, 136]
    else FetchRes.ok [65]) "public" SNMP.OID_RSSI_TS1 [0, 0, 19, 136]
    (by decide) (by decide)).1
  rw [h1]
  have hb : SNMP.ALL_FLOATS.contains SNMP.OID_RSSI_TS1 = false := by decide
  rw [hb]
  simp

/-- Claim C6: when the first attempt times out, the value returned to the
caller is the FIRST attempt snapshot (the partial dict accumulated before
the timeout), not the fallback attempt snapshot — the recursive call
return value is discarded — while a successful fallback attempt still
merges its own snapshot into the store. -/
theorem C6_fallback_result_discarded
    (fetch : String → String → FetchRes) (st : Store) (c : String)
    (h : (tryBody fetch c).failure = some Failure.timeout) :
    exSnap (walk_ip fetch st c true) = (tryBody fetch c).snmp_data
    ∧ ((tryBody fetch (otherCommunity c)).failure = none →
        exStore st (walk_ip fetch st c true) =
          mergeStore st (tryBody fetch (otherCommunity c)).snmp_data) := by
  rw [walk_ip_timeout_first fetch st c h]
  constructor
  · rfl
  · intro h2
    simp [exStore, h2]

/-- Witness for claim C6 at an oracle that times out for the "public"
community and succeeds for "hytera": the returned snapshot is the empty
first-attempt dict while the store receives the fallback snapshot. -/
theorem C6_witness :
    (tryBody (fun comm _ => if comm = "public" then FetchRes.timeout
        else FetchRes.ok [65]) "public").failure = some Failure.timeout
    ∧ (tryBody (fun comm _ => if comm = "public" then FetchRes.timeout
        else FetchRes.ok [65]) "hytera").failure = none
    ∧ exSnap (walk_ip (fun comm _ => if comm = "public" then FetchRes.timeout
        else FetchRes.ok [65]) [] "public" true) = []
    ∧ exStore [] (walk_ip (fun comm _ => if comm = "public" then FetchRes.timeout
        else FetchRes.ok [65]) [] "public" true)
      = mergeStore [] (tryBody (fun comm _ => if comm = "public" then FetchRes.timeout
        else FetchRes.ok [65]) "hytera").snmp_data := by
  have hmain := C6_fallback_result_discarded
    (fun comm _ => if comm = "public" then FetchRes.timeout else FetchRes.ok [65])
    [] "public" (by decide)
  refine ⟨by decide, by decide, ?_, ?_⟩
  · rw [hmain.1]
    decide
  · have h2 := hmain.2 (by decide)
    simpa using h2

theorem filterMap_reportLine_length : ∀ store : Store,
    (store.filterMap reportLine).length
      = (store.filter (fun kv => (lookupLabel kv.1).isSome)).length
  | [] => rfl
  | kv :: rest => by
    cases h : lookupLabel kv.1 <;>
      simp [List.filterMap_cons, List.filter_cons, reportLine, h,
        filterMap_reportLine_length rest]

/-- Claim C7: the reporter emits, between the two banner lines, exactly
one line per store entry that has a registered descriptor, in store
insertion order, silently skipping entries without one; each line is the
label left-justified to the longest known label length plus the fixed
gutter of 5, followed by the separator and the value rendered through the
descriptor format template (every registered label length is bounded by
`longest_label`). -/
theorem C7_reporter_lines (store : Store) :
    print_snmp_data store
      = SNMP_BANNER :: store.filterMap reportLine ++ [SNMP_BANNER]
    ∧ (store.filterMap reportLine).length
        = (store.filter (fun kv => (lookupLabel kv.1).isSome)).length
    ∧ SNMP.READABLE_LABELS.all
        (fun kv => Nat.ble kv.2.1.length longest_label) = true := by
  refine ⟨?_, filterMap_reportLine_length store, by decide⟩
  rw [print_snmp_data, print_foldl_filterMap]
  simp

/-- Filtering a replicated character out when the predicate rejects it. -/
theorem filter_replicate_nil (p : Char → Bool) (c : Char) (hp : p c = false) :
    ∀ n : Nat, (List.replicate n c).filter p = []
  | 0 => rfl
  | n + 1 => by
    simp [List.replicate_succ, List.filter_cons, hp, filter_replicate_nil p c hp n]

/-- Claim C8: the Text decode path interprets the raw bytes as UTF-8 and
strips NUL padding and non-printable bytes, so the bytes of
"CALLSIGN\x00\x00" decode to the clean string "CALLSIGN"; appending any
amount of NUL padding to a string never changes the normalized result. -/
theorem C8_text_decode_strips_padding :
    decodeText [67, 65, 76, 76, 83, 73, 71, 78, 0, 0] = some "CALLSIGN"
    ∧ ∀ (s : String) (n : Nat),
        octet_string_to_utf8 (String.mk (s.data ++ List.replicate n (Char.ofNat 0)))
          = octet_string_to_utf8 s := by
  refine ⟨by decide, ?_⟩
  intro s n
  rw [octet_string_to_utf8, octet_string_to_utf8]
  simp only [List.filter_append,
    filter_replicate_nil isPrintableChar (Char.ofNat 0) (by decide) n,
    List.append_nil]

/-- Claim C9: every identifier passed to the protocol collaborator is the
numeric-root form of a catalog OID (the `iso` root replaced by `1`,
applied exactly at the call boundary), while the snapshot keys remain the
symbolic iso-root catalog OIDs: the call list is always a prefix of the
catalog mapped through the translation, and the snapshot keys are always
a prefix of the catalog itself. -/
theorem C9_oid_numeric_form (fetch : String → String → FetchRes) (c : String) :
    (∃ k, (tryBody fetch c).calls =
      (SNMP.ALL_KNOWN.take k).map (fun oid => pyReplace oid "iso" "1"))
    ∧ (∃ j, (tryBody fetch c).snmp_data.map Prod.fst = SNMP.ALL_KNOWN.take j)
    ∧ SNMP.ALL_KNOWN.all
        (fun oid => pyReplace oid "iso" "1" == "1" ++ oid.drop 3) = true := by
  refine ⟨?_, ?_, by decide⟩
  · obtain ⟨k, hk⟩ := runLoop_calls_take (stepOf fetch c) SNMP.ALL_KNOWN [] []
    exact ⟨k, by simpa [tryBody, stepOf] using hk⟩
  · obtain ⟨j, hj⟩ := runLoop_keys_take (stepOf fetch c) SNMP.ALL_KNOWN [] []
      (by intro p hp; cases hp) ALL_KNOWN_nodup
    exact ⟨j, by simpa [tryBody] using hj⟩

/-- Claim C10: every failure class arising in the fetch/decode loop —
connection refusal, timeout/cancellation, decode error, or any other
exception — is caught inside `walk_ip`, which always returns a plain
(possibly empty) snapshot dictionary instead of propagating a raised
fault. -/
theorem C10_no_raised_fault
    (fetch : String → String → FetchRes) (st : Store) (c : String) (ft : Bool) :
    ∃ out : WalkOut, walk_ip fetch st c ft = Except.ok out := by
  cases h : (tryBody fetch c).failure with
  | none => exact ⟨_, walk_ip_success fetch st c ft h⟩
  | some e =>
    cases e with
    | timeout =>
      cases ft with
      | false => exact ⟨_, walk_ip_fail_no_retry fetch st c false _ h (Or.inl rfl)⟩
      | true => exact ⟨_, walk_ip_timeout_first fetch st c h⟩
    | connRefused =>
      exact ⟨_, walk_ip_fail_no_retry fetch st c ft _ h (Or.inr (by decide))⟩
    | sysError =>
      exact ⟨_, walk_ip_fail_no_retry fetch st c ft _ h (Or.inr (by decide))⟩
    | decodeError =>
      exact ⟨_, walk_ip_fail_no_retry fetch st c ft _ h (Or.inr (by decide))⟩
    | other =>
      exact ⟨_, walk_ip_fail_no_retry fetch st c ft _ h (Or.inr (by decide))⟩
